import Mathlib

/-!
Verification of the volume block of `muse-status` (`src/volume/mod.rs`).

The block keeps a mutable state `VolumeBlock { current_volume: i32, muted: bool }`,
parses one line of `amixer` output into that state (`update_current_volume`), and
renders the state as an icon plus text (`get_icon`, `Block::output`).  The poller
`get_volume_info` retries the external command with exponential backoff.

Strings from the mixer are modelled as `List Char` (the Rust code walks the line
with `chars()`); the block state, the parser, the renderer and the poller are
embedded as executable Lean functions that follow the Rust control flow, with the
in-place mutations of `&mut self` made explicit by returning the state after the
call next to the `Result`.
-/

namespace MuseStatus

/-- Mirrors `UpdateError { block_name, message }` from `crate::errors`. -/
structure UpdateError where
  block_name : String
  message : String
deriving DecidableEq, Repr

/-- Mirrors the Rust return type `Result<(), UpdateError>` of `update`. -/
inductive UpdateResult where
  | ok : UpdateResult
  | error : UpdateError → UpdateResult
deriving DecidableEq, Repr

/-- The state of `VolumeBlock`: `current_volume: i32` (modelled as `Int`;
the parser only ever stores values in `[0, 2^31)`) and `muted: bool`. -/
structure VolumeState where
  current_volume : Int
  muted : Bool
deriving DecidableEq, Repr

/-- `VolumeBlock::new()` / `Default::default()`: `(0, false)`. -/
def defaultState : VolumeState := { current_volume := 0, muted := false }

/-- `beginsWith l p`: `p` is a leading segment of `l`, char for char. -/
def beginsWith : List Char → List Char → Bool
  | _, [] => true
  | [], _ :: _ => false
  | c :: cs, p :: ps => c == p && beginsWith cs ps

/-- Rust `str::contains(pat)`: `pat` occurs contiguously somewhere in the text. -/
def containsSub (pat : List Char) : List Char → Bool
  | [] => beginsWith [] pat
  | c :: cs => beginsWith (c :: cs) pat || containsSub pat cs

/-- Rust `info.chars().position(|c| c == '[')`: index of the first `[`. -/
def posOpen : List Char → Option Nat
  | [] => none
  | c :: cs => if c == '[' then some 0 else (posOpen cs).map (· + 1)

/-- `i32::MAX`, the largest value `raw_percent.parse::<i32>()` can return. -/
def I32_MAX : Int := 2147483647

/-- Numeric value of a string of decimal digit characters. -/
def digitsVal (l : List Char) : Nat :=
  l.foldl (fun a c => a * 10 + (c.toNat - '0'.toNat)) 0

/-- Rust `raw_percent.parse::<i32>()` applied to a (possibly empty) string of
decimal digit characters: fails on the empty string and on overflow past
`i32::MAX`, with the display messages of the corresponding `ParseIntError`s. -/
def parseI32Digits (l : List Char) : Except String Int :=
  if l = [] then .error "cannot parse integer from empty string"
  else if (digitsVal l : Int) ≤ I32_MAX then .ok (digitsVal l)
  else .error "number too large to fit in target type"

/-- Message of the `MalformedOutput` error (`src/volume/mod.rs` line 86). -/
def malformedMsg : String := "couldn't parse amixer output"

/-- Message of the `AmbiguousMuteState` error (`src/volume/mod.rs` line 63). -/
def ambiguousMsg : String := "couldn't parse if volume is definitely muted or not"

/-- Message of the `InvalidPercentage` error:
`format!("couldn't parse volume from `{}`: {}", raw_percent, e)`. -/
def percentMsg (raw e : String) : String :=
  "couldn't parse volume from `" ++ raw ++ "`: " ++ e

/-- The tail of `update_current_volume` once the mute decision has been made:
`self.muted` has just been assigned `m` (this assignment persists even if the
percentage parse below fails); when unmuted, the digit characters of `line_end`
are collected and parsed into `self.current_volume`. -/
def updateWithMuted (s : VolumeState) (line_end : List Char) (m : Bool) :
    UpdateResult × VolumeState :=
  let s1 := { s with muted := m }
  if m then (.ok, s1)
  else
    let raw := line_end.filter (fun c => c.isDigit)
    match parseI32Digits raw with
    | .ok v => (.ok, { s1 with current_volume := v })
    | .error e =>
      (.error { block_name := "volume", message := percentMsg (String.mk raw) e }, s1)

/-- `VolumeBlock::update_current_volume` (and hence `Block::update`, which just
delegates to it), with the raw mixer line passed explicitly in place of the
`get_volume_info()` call.  Returns the Rust `Result` paired with the state of
the block after the call, mirroring the in-place mutation of `&mut self`. -/
def update_current_volume (s : VolumeState) (info : List Char) :
    UpdateResult × VolumeState :=
  match posOpen info with
  | some i =>
    let line_end := info.drop i
    if containsSub "on".data line_end then
      updateWithMuted s line_end false
    else if containsSub "off".data line_end then
      updateWithMuted s line_end true
    else
      (.error { block_name := "volume", message := ambiguousMsg }, s)
  | none => (.error { block_name := "volume", message := malformedMsg }, s)

/-- `const VOLUME_ICONS: [char; 3]`. -/
def VOLUME_ICONS : List Char := [Char.ofNat 0xF057F, Char.ofNat 0xF0580, Char.ofNat 0xF057E]

/-- `const MUTE_ICON: char`. -/
def MUTE_ICON : Char := Char.ofNat 0xF0581

/-- `const ZERO_ICON: char`. -/
def ZERO_ICON : Char := Char.ofNat 0xF0E08

/-- The index computed in the unmuted branch of `get_icon`:
`(self.current_volume as usize * VOLUME_ICONS.len() / 100).min(VOLUME_ICONS.len() - 1)`.
The `i32`-to-`usize` cast is modelled by `Int.toNat`, which agrees with the Rust
cast on every nonnegative `i32` value (all values the parser can store). -/
def iconIndex (v : Int) : Nat :=
  min (v.toNat * VOLUME_ICONS.length / 100) (VOLUME_ICONS.length - 1)

/-- `VolumeBlock::get_icon`.  Total: every branch yields a glyph, and the list
index is kept in bounds by the `min` (the `getD` default is never reached). -/
def get_icon (s : VolumeState) : Char :=
  if s.current_volume == 0 then ZERO_ICON
  else if s.muted then MUTE_ICON
  else VOLUME_ICONS.getD (iconIndex s.current_volume) ZERO_ICON

/-- `crate::format::Attention`; only the `Dim` level is used by this block. -/
inductive Attention where
  | Dim : Attention
deriving DecidableEq, Repr

/-- `crate::format::blocks::output::NiceOutput`. -/
structure NiceOutput where
  icon : Char
  primary_text : String
  secondary_text : Option String
  attention : Attention
deriving DecidableEq, Repr

/-- `crate::format::blocks::output::BlockOutputContent`; only the `Nice`
variant is used by this block. -/
inductive BlockOutputContent where
  | Nice : NiceOutput → BlockOutputContent
deriving DecidableEq, Repr

/-- `Block::output` for `VolumeBlock`. -/
def output (s : VolumeState) : Option BlockOutputContent :=
  some (.Nice
    { icon := get_icon s
      primary_text :=
        if s.muted || s.current_volume == 0 then "Muted"
        else toString s.current_volume ++ "%"
      secondary_text := none
      attention := .Dim })

/-- The states reachable from the default state `(0, false)` by any sequence of
`update` calls over arbitrary mixer lines (the state after a call is the second
component of `update_current_volume`, whether or not the call succeeded). -/
inductive Reachable : VolumeState → Prop where
  | init : Reachable defaultState
  | step (s : VolumeState) (line : List Char) :
      Reachable s → Reachable (update_current_volume s line).2

/-- `VolumeBlock::MAX_WAIT_SECONDS`. -/
def MAX_WAIT_SECONDS : Nat := 30

/-- The backoff update at the bottom of `get_volume_info`'s loop: after the
sleep, `wait_time_seconds` is doubled, capped at `MAX_WAIT_SECONDS`, and left
alone once the cap has been reached. -/
def nextWait (w : Nat) : Nat :=
  if w < MAX_WAIT_SECONDS then min MAX_WAIT_SECONDS (w * 2) else w

/-- One attempt of `get_volume_info`'s loop: the external invocation's outcome is
`none` when the command fails or its output is not decodable as text, and
otherwise the decoded lines.  The attempt produces a line iff a last line exists. -/
def attemptResult (o : Option (List String)) : Option String :=
  match o with
  | some lines => lines.getLast?
  | none => none

/-- `VolumeBlock::get_volume_info`, with the sequence of external invocation
outcomes made explicit and the sleeps recorded instead of performed.  Returns
the list of sleep durations (in seconds) and the returned line; `none` means the
finite outcome list was exhausted without a success (the Rust loop would simply
keep retrying). -/
def get_volume_info : List (Option (List String)) → Nat → Option (List Nat × String)
  | [], _ => none
  | o :: rest, wait =>
    match attemptResult o with
    | some lastLine => some ([], lastLine)
    | none => (get_volume_info rest (nextWait wait)).map (fun p => (wait :: p.1, p.2))

/-- The poller entry point: the loop starts with `wait_time_seconds = 1`. -/
def fetch_status_line (outcomes : List (Option (List String))) :
    Option (List Nat × String) :=
  get_volume_info outcomes 1

/-- A successful `parse::<i32>` of a digit string yields a value in `[0, i32::MAX]`. -/
lemma parseI32Digits_ok_range {l : List Char} {v : Int}
    (h : parseI32Digits l = .ok v) : 0 ≤ v ∧ v ≤ I32_MAX := by
  unfold parseI32Digits at h
  split at h
  · exact absurd h (by simp)
  · split at h
    · rw [Except.ok.injEq] at h
      subst h
      exact ⟨Int.ofNat_nonneg _, by assumption⟩
    · exact absurd h (by simp)

/-- Behaviour of `update_current_volume` when the segment from the first `[`
contains `"on"` and its digits parse: the parse succeeds, `muted` is set to
`false` and `current_volume` becomes the parsed value. -/
lemma update_on_ok (s : VolumeState) (line : List Char) (i : Nat) (d : Int)
    (h1 : posOpen line = some i)
    (h2 : containsSub "on".data (line.drop i) = true)
    (h3 : parseI32Digits ((line.drop i).filter (fun c => c.isDigit)) = .ok d) :
    update_current_volume s line = (.ok, { current_volume := d, muted := false }) := by
  unfold update_current_volume
  rw [h1]
  simp only [h2, if_true, updateWithMuted, Bool.false_eq_true, if_false, h3]

/-- Behaviour of `update_current_volume` when the segment from the first `[`
contains `"off"` but not `"on"`: the parse succeeds, only `muted` changes. -/
lemma update_off_ok (s : VolumeState) (line : List Char) (i : Nat)
    (h1 : posOpen line = some i)
    (h2 : containsSub "on".data (line.drop i) = false)
    (h3 : containsSub "off".data (line.drop i) = true) :
    update_current_volume s line = (.ok, { s with muted := true }) := by
  unfold update_current_volume
  rw [h1]
  simp only [h2, Bool.false_eq_true, if_false, h3, if_true, updateWithMuted]

/-- Behaviour of `update_current_volume` on a line with no `[`. -/
lemma update_none (s : VolumeState) (line : List Char) (h : posOpen line = none) :
    update_current_volume s line =
      (.error { block_name := "volume", message := malformedMsg }, s) := by
  unfold update_current_volume
  rw [h]

/-- `updateWithMuted` keeps `current_volume` inside `[0, i32::MAX]`. -/
lemma updateWithMuted_range (s : VolumeState) (line_end : List Char) (m : Bool)
    (h : 0 ≤ s.current_volume ∧ s.current_volume ≤ I32_MAX) :
    0 ≤ (updateWithMuted s line_end m).2.current_volume
    ∧ (updateWithMuted s line_end m).2.current_volume ≤ I32_MAX := by
  unfold updateWithMuted
  cases m with
  | true => simpa using h
  | false =>
    simp only [Bool.false_eq_true, if_false]
    cases hp : parseI32Digits (line_end.filter (fun c => c.isDigit)) with
    | ok v => simpa using parseI32Digits_ok_range hp
    | error e => simpa using h

/-- `update_current_volume` keeps `current_volume` inside `[0, i32::MAX]`. -/
lemma update_range (s : VolumeState) (line : List Char)
    (h : 0 ≤ s.current_volume ∧ s.current_volume ≤ I32_MAX) :
    0 ≤ (update_current_volume s line).2.current_volume
    ∧ (update_current_volume s line).2.current_volume ≤ I32_MAX := by
  unfold update_current_volume
  cases hp : posOpen line with
  | none => simpa using h
  | some i =>
    simp only []
    split_ifs with h1 h2
    · exact updateWithMuted_range _ _ _ h
    · exact updateWithMuted_range _ _ _ h
    · simpa using h

/-- Every call of `update_current_volume` either succeeds, or leaves
`current_volume` intact and changes the state at most by setting
`muted := false` (the latter on the unparsable-percentage path). -/
lemma update_cases (s : VolumeState) (line : List Char) :
    (update_current_volume s line).1 = .ok
    ∨ ((update_current_volume s line).2.current_volume = s.current_volume
       ∧ ((update_current_volume s line).2 = s
          ∨ (update_current_volume s line).2 = { s with muted := false })) := by
  unfold update_current_volume
  cases hp : posOpen line with
  | none => exact Or.inr ⟨rfl, Or.inl rfl⟩
  | some i =>
    simp only []
    split_ifs with h1 h2
    · unfold updateWithMuted
      simp only [Bool.false_eq_true, if_false]
      cases hq : parseI32Digits ((line.drop i).filter (fun c => c.isDigit)) with
      | ok v => exact Or.inl rfl
      | error msg => exact Or.inr ⟨rfl, Or.inr rfl⟩
    · exact Or.inl rfl
    · exact Or.inr ⟨rfl, Or.inl rfl⟩

/-- On every error path of `update_current_volume`, `current_volume` is kept,
and the state is either untouched or touched only by setting `muted := false`. -/
lemma update_error_shape (s : VolumeState) (line : List Char) (e : UpdateError)
    (h : (update_current_volume s line).1 = .error e) :
    (update_current_volume s line).2.current_volume = s.current_volume
    ∧ ((update_current_volume s line).2 = s
       ∨ (update_current_volume s line).2 = { s with muted := false }) := by
  rcases update_cases s line with hok | hshape
  · rw [hok] at h; exact absurd h (by simp)
  · exact hshape

/-- The invalid-percentage message never coincides with the ambiguous-mute
message, whatever digit string and parse failure it reports. -/
lemma percentMsg_ne_ambiguousMsg (r e : String) : percentMsg r e ≠ ambiguousMsg := by
  intro h
  have hd : (percentMsg r e).data = ambiguousMsg.data := by rw [h]
  unfold percentMsg at hd
  rw [String.data_append, String.data_append, String.data_append] at hd
  rw [List.append_assoc, List.append_assoc] at hd
  have h16 := congrArg (List.take 16) hd
  rw [List.take_append_of_le_length (by decide)] at h16
  exact absurd h16 (by decide)

/-- One backoff step starting from `min 30 (2 ^ j)` lands on `min 30 (2 ^ (j + 1))`. -/
lemma nextWait_min_pow (j : Nat) :
    nextWait (min MAX_WAIT_SECONDS (2 ^ j)) = min MAX_WAIT_SECONDS (2 ^ (j + 1)) := by
  rcases le_or_lt j 4 with hj | hj
  · interval_cases j <;> decide
  · have h1 : MAX_WAIT_SECONDS ≤ 2 ^ j := by
      calc MAX_WAIT_SECONDS ≤ 2 ^ 5 := by decide
      _ ≤ 2 ^ j := Nat.pow_le_pow_right (by norm_num) hj
    have h2 : MAX_WAIT_SECONDS ≤ 2 ^ (j + 1) :=
      le_trans h1 (Nat.pow_le_pow_right (by norm_num) (by omega))
    rw [min_eq_left h1, min_eq_left h2]
    simp [nextWait]

/-- The poller loop run against `k` failing invocations followed by a successful
one: it sleeps once per failure, for `min 30 (2 ^ (j + i))` seconds at the `i`-th
failure when the loop entered with `wait = min 30 (2 ^ j)`, and returns the last
decoded line of the successful invocation. -/
lemma get_volume_info_backoff (L : List String) (hL : L ≠ [])
    (fails rest : List (Option (List String))) (j : Nat)
    (hf : ∀ x ∈ fails, attemptResult x = none) :
    get_volume_info (fails ++ some L :: rest) (min MAX_WAIT_SECONDS (2 ^ j)) =
      some ((List.range fails.length).map (fun i => min MAX_WAIT_SECONDS (2 ^ (j + i))),
        L.getLast hL) := by
  induction fails generalizing j with
  | nil => simp [get_volume_info, attemptResult, List.getLast?_eq_getLast _ hL]
  | cons f fs ih =>
    have hf0 : attemptResult f = none := hf f (by simp)
    have hfs : ∀ x ∈ fs, attemptResult x = none := fun x hx => hf x (by simp [hx])
    simp only [List.cons_append, get_volume_info, hf0, List.append_eq]
    rw [nextWait_min_pow, ih (j + 1) hfs]
    simp only [List.length_cons, List.range_succ_eq_map, List.map_cons, List.map_map,
      Option.map_some', Option.some.injEq, Prod.mk.injEq, List.cons.injEq]
    refine ⟨⟨by simp, ?_⟩, trivial⟩
    apply List.map_congr_left
    intro a _
    simp only [Function.comp_apply]
    have h' : j + 1 + a = j + a.succ := by omega
    rw [h']

/-- C1 (counterexample): the state `(150, false)` is reachable from the default
state by a single `update` on the line `"[150%] [on]"`, and its `current_volume`
lies outside `[0, 100]` — so the claimed invariant fails. -/
theorem C1_counterexample :
    Reachable { current_volume := 150, muted := false } ∧ ¬((150 : Int) ≤ 100) := by
  constructor
  · have h : (update_current_volume defaultState "[150%] [on]".data).2 =
        { current_volume := 150, muted := false } := by decide
    exact h ▸ Reachable.step defaultState "[150%] [on]".data Reachable.init
  · decide

/-- C1 (amended): in every state reachable from the default state `(0, false)`
by any sequence of `update` calls, `current_volume` is an integer in
`[0, i32::MAX]` — nonnegative, but not bounded by 100, since the parser stores
whatever percentage the mixer reports. -/
theorem C1_volume_range (s : VolumeState) (h : Reachable s) :
    0 ≤ s.current_volume ∧ s.current_volume ≤ I32_MAX := by
  induction h with
  | init => exact ⟨by decide, by decide⟩
  | step s line hr ih => exact update_range s line ih

/-- C1 (witness): the amended invariant evaluated at the reachable state
produced by one `update` on `"[150%] [on]"`. -/
theorem C1_volume_range_witness :
    0 ≤ (update_current_volume defaultState "[150%] [on]".data).2.current_volume
    ∧ (update_current_volume defaultState "[150%] [on]".data).2.current_volume ≤ I32_MAX :=
  C1_volume_range _ (Reachable.step defaultState "[150%] [on]".data Reachable.init)

/-- C2 (counterexample): from the state `(50, true)`, updating on the line
`"[on]"` returns an error (its digit string is empty), yet the state is not
what it was before the call: `muted` has already been reset to `false`. -/
theorem C2_counterexample :
    (update_current_volume { current_volume := 50, muted := true } "[on]".data).1 ≠ .ok
    ∧ (update_current_volume { current_volume := 50, muted := true } "[on]".data).2 ≠
        { current_volume := 50, muted := true } := by decide

/-- C2 (amended): if `update` returns an error, `current_volume` is exactly what
it was before the call, and the state either is entirely unchanged or differs
only in `muted` having been set to `false` (which happens precisely on the
invalid-percentage error, where the mute flag was assigned before the
percentage parse failed). -/
theorem C2_error_atomicity (s : VolumeState) (line : List Char) (e : UpdateError)
    (h : (update_current_volume s line).1 = .error e) :
    (update_current_volume s line).2.current_volume = s.current_volume
    ∧ ((update_current_volume s line).2 = s
       ∨ (update_current_volume s line).2 = { s with muted := false }) :=
  update_error_shape s line e h

/-- C2 (witness): the amended property evaluated at the state `(50, true)` and
the line `"[on]"`, whose update fails with the invalid-percentage error. -/
theorem C2_error_atomicity_witness :
    (update_current_volume { current_volume := 50, muted := true } "[on]".data).1 =
      .error { block_name := "volume",
               message := percentMsg "" "cannot parse integer from empty string" }
    ∧ ((update_current_volume { current_volume := 50, muted := true } "[on]".data).2.current_volume
        = (50 : Int)
       ∧ ((update_current_volume { current_volume := 50, muted := true } "[on]".data).2 =
            { current_volume := 50, muted := true }
          ∨ (update_current_volume { current_volume := 50, muted := true } "[on]".data).2 =
            { current_volume := 50, muted := false })) :=
  ⟨by decide, C2_error_atomicity { current_volume := 50, muted := true } "[on]".data
    { block_name := "volume",
      message := percentMsg "" "cannot parse integer from empty string" } (by decide)⟩

/-- C3 (counterexample): parsing `"Mono: Playback 50 [75%] [on]"` does yield the
state `(75, false)`, but rendering that state selects the glyph at index 2 —
the last of the three ordered volume icons — which is not the mid-level icon
at index 1. -/
theorem C3_counterexample :
    (update_current_volume defaultState "Mono: Playback 50 [75%] [on]".data).2 =
      { current_volume := 75, muted := false }
    ∧ get_icon { current_volume := 75, muted := false } = VOLUME_ICONS.getD 2 ZERO_ICON
    ∧ VOLUME_ICONS.getD 2 ZERO_ICON ≠ VOLUME_ICONS.getD 1 ZERO_ICON := by decide

/-- C3 (amended): parsing the line `"Mono: Playback 50 [75%] [on]"` from any
starting state yields the state `(75, false)`, and rendering that state yields
primary text `"75%"` and the last (highest-level) icon of the ordered icon set,
since `min(N-1, 75 * 3 / 100) = 2`. -/
theorem C3_mono_scenario (s : VolumeState) :
    update_current_volume s "Mono: Playback 50 [75%] [on]".data =
      (.ok, { current_volume := 75, muted := false })
    ∧ output { current_volume := 75, muted := false } =
        some (.Nice { icon := VOLUME_ICONS.getD (VOLUME_ICONS.length - 1) ZERO_ICON,
                      primary_text := "75%", secondary_text := none, attention := .Dim })
    ∧ iconIndex 75 = VOLUME_ICONS.length - 1 := by
  refine ⟨?_, by decide, by decide⟩
  exact update_on_ok s _ 18 75 (by decide) (by decide) rfl

/-- C4: for every starting state and every line with a first `[` at position
`i`, if the substring from that `[` to the end contains `"on"` and its decimal
digit characters, concatenated in order, parse as an `i32` value `d`, then
`update` succeeds and the new state is `(d, false)` — `muted = false` and
`current_volume = integer(D)`. -/
theorem C4_unmuted_parse (s : VolumeState) (line : List Char) (i : Nat) (d : Int)
    (h1 : posOpen line = some i)
    (h2 : containsSub "on".data (line.drop i) = true)
    (h3 : parseI32Digits ((line.drop i).filter (fun c => c.isDigit)) = .ok d) :
    update_current_volume s line = (.ok, { current_volume := d, muted := false }) :=
  update_on_ok s line i d h1 h2 h3

/-- C4 (witness): the property at the line `"[1on]"` from the default state. -/
theorem C4_unmuted_parse_witness :
    posOpen "[1on]".data = some 0
    ∧ containsSub "on".data (("[1on]".data).drop 0) = true
    ∧ parseI32Digits ((("[1on]".data).drop 0).filter (fun c => c.isDigit)) = .ok 1
    ∧ update_current_volume defaultState "[1on]".data =
        (.ok, { current_volume := 1, muted := false }) :=
  ⟨by decide, by decide, rfl,
    C4_unmuted_parse defaultState "[1on]".data 0 1 (by decide) (by decide) rfl⟩

/-- C5 (counterexample): the line `"[50%] [off] [on]"` contains `"off"` after
its first `[`, yet updating from the state `(0, false)` does not set
`muted := true` and does not keep `current_volume`: the segment also contains
`"on"`, which is checked first, so the state becomes `(50, false)`. -/
theorem C5_counterexample :
    posOpen "[50%] [off] [on]".data = some 0
    ∧ containsSub "off".data (("[50%] [off] [on]".data).drop 0) = true
    ∧ update_current_volume { current_volume := 0, muted := false } "[50%] [off] [on]".data =
        (.ok, { current_volume := 50, muted := false }) := by decide

/-- C5 (amended): for every starting state and every line whose substring from
the first `[` contains `"off"` and does not contain `"on"`, parsing succeeds
with `muted = true` and `current_volume` unchanged from its prior value. -/
theorem C5_muted_parse (s : VolumeState) (line : List Char) (i : Nat)
    (h1 : posOpen line = some i)
    (h2 : containsSub "on".data (line.drop i) = false)
    (h3 : containsSub "off".data (line.drop i) = true) :
    update_current_volume s line = (.ok, { s with muted := true }) :=
  update_off_ok s line i h1 h2 h3

/-- C5 (witness): the amended property at the line `"[off]"` from `(42, false)`. -/
theorem C5_muted_parse_witness :
    posOpen "[off]".data = some 0
    ∧ containsSub "on".data (("[off]".data).drop 0) = false
    ∧ containsSub "off".data (("[off]".data).drop 0) = true
    ∧ update_current_volume { current_volume := 42, muted := false } "[off]".data =
        (.ok, { current_volume := 42, muted := true }) :=
  ⟨by decide, by decide, by decide,
    C5_muted_parse { current_volume := 42, muted := false } "[off]".data 0
      (by decide) (by decide) (by decide)⟩

/-- C6 (counterexample): on the bracketless line `"no brackets here"`, `update`
fails with block name `"volume"`, but the message is
`"couldn't parse amixer output"`, not the claimed `"couldn't parse mixer
output"`. -/
theorem C6_counterexample :
    (update_current_volume defaultState "no brackets here".data).1 =
      .error { block_name := "volume", message := "couldn't parse amixer output" }
    ∧ "couldn't parse amixer output" ≠ "couldn't parse mixer output" := by decide

/-- C6 (amended): for every starting state and every line with no `[`, `update`
fails, leaves the state untouched, and the error has block name `"volume"` and
message `"couldn't parse amixer output"`. -/
theorem C6_missing_bracket (s : VolumeState) (line : List Char)
    (h : posOpen line = none) :
    update_current_volume s line =
      (.error { block_name := "volume", message := "couldn't parse amixer output" }, s) :=
  update_none s line h

/-- C6 (witness): the amended property at the line `"no brackets here"`. -/
theorem C6_missing_bracket_witness :
    posOpen "no brackets here".data = none
    ∧ update_current_volume defaultState "no brackets here".data =
        (.error { block_name := "volume", message := "couldn't parse amixer output" },
          defaultState) :=
  ⟨by decide, C6_missing_bracket defaultState "no brackets here".data (by decide)⟩

/-- C7: for every starting state and every line with a first `[` at position
`i`: if the substring from that `[` contains neither `"on"` nor `"off"`,
`update` fails with the ambiguous-mute-state error (block name `"volume"`) and
leaves the state untouched; and whenever at least one of the two tokens is
present, the mute decision succeeds — the result is never the ambiguous-mute
error, and the new state's `muted` flag is `false` when `"on"` is present
(checked first) and `true` otherwise. -/
theorem C7_mute_detection (s : VolumeState) (line : List Char) (i : Nat)
    (h : posOpen line = some i) :
    (containsSub "on".data (line.drop i) = false →
      containsSub "off".data (line.drop i) = false →
      update_current_volume s line =
        (.error { block_name := "volume", message := ambiguousMsg }, s))
    ∧ (containsSub "on".data (line.drop i) = true ∨
        containsSub "off".data (line.drop i) = true →
      (update_current_volume s line).1 ≠
          .error { block_name := "volume", message := ambiguousMsg }
      ∧ (update_current_volume s line).2.muted
          = !containsSub "on".data (line.drop i)) := by
  unfold update_current_volume
  rw [h]
  simp only []
  by_cases hon : containsSub "on".data (line.drop i) = true
  · simp only [hon, if_true]
    constructor
    · intro hfalse _
      exact absurd hfalse (by simp)
    · intro _
      unfold updateWithMuted
      simp only [Bool.false_eq_true, if_false]
      cases hq : parseI32Digits ((line.drop i).filter (fun c => c.isDigit)) with
      | ok v => exact ⟨by simp, by simp [hon]⟩
      | error msg =>
        constructor
        · intro heq
          rw [UpdateResult.error.injEq, UpdateError.mk.injEq] at heq
          exact percentMsg_ne_ambiguousMsg _ _ heq.2
        · simp [hon]
  · have hon' : containsSub "on".data (line.drop i) = false := by
      simpa using hon
    by_cases hoff : containsSub "off".data (line.drop i) = true
    · simp only [hon', Bool.false_eq_true, if_false, hoff, if_true]
      constructor
      · intro _ hoff2
        exact absurd hoff2 (by simp)
      · intro _
        unfold updateWithMuted
        simp only [if_true]
        exact ⟨by simp, by simp [hon']⟩
    · have hoff' : containsSub "off".data (line.drop i) = false := by
        simpa using hoff
      simp only [hon', hoff', Bool.false_eq_true, if_false]
      constructor
      · intro _ _
        trivial
      · intro hd
        rcases hd with h1 | h1
        · exact h1.elim
        · exact h1.elim

/-- C7 (witness): the ambiguous branch at the line `"[50%]"` (no `"on"`, no
`"off"`) from the default state. -/
theorem C7_mute_detection_witness :
    posOpen "[50%]".data = some 0
    ∧ update_current_volume defaultState "[50%]".data =
        (.error { block_name := "volume", message := ambiguousMsg }, defaultState) :=
  ⟨by decide,
    (C7_mute_detection defaultState "[50%]".data 0 (by decide)).1 (by decide) (by decide)⟩

/-- C8: for unmuted states, the icon index is monotone in the volume — for
`0 < v ≤ w` (within the `i32` range) the index at `w` is not earlier than at
`v` — the index equals `min(N-1, v*N/100)` over the `N`-element ordered icon
set, the icon rendered for an unmuted positive volume is the one at that
index, and `v = 100` selects the last icon. -/
theorem C8_icon_monotone (v w : Int) (h0 : 0 < v) (hvw : v ≤ w) (hmax : w ≤ I32_MAX) :
    iconIndex v ≤ iconIndex w
    ∧ iconIndex v = min (VOLUME_ICONS.length - 1) (v.toNat * VOLUME_ICONS.length / 100)
    ∧ get_icon { current_volume := v, muted := false } =
        VOLUME_ICONS.getD (iconIndex v) ZERO_ICON
    ∧ get_icon { current_volume := 100, muted := false } =
        VOLUME_ICONS.getD (VOLUME_ICONS.length - 1) ZERO_ICON := by
  refine ⟨?_, ?_, ?_, by decide⟩
  · unfold iconIndex
    have ht : v.toNat ≤ w.toNat := Int.toNat_le_toNat hvw
    exact min_le_min (Nat.div_le_div_right (Nat.mul_le_mul_right _ ht)) le_rfl
  · unfold iconIndex
    exact min_comm _ _
  · have hne : (v == 0) = false := beq_eq_false_iff_ne.mpr h0.ne'
    simp [get_icon, hne]

/-- C8 (witness): the properties at `v = 30`, `w = 60`. -/
theorem C8_icon_monotone_witness :
    iconIndex 30 ≤ iconIndex 60
    ∧ iconIndex 30 = min (VOLUME_ICONS.length - 1) ((30 : Int).toNat * VOLUME_ICONS.length / 100)
    ∧ get_icon { current_volume := 30, muted := false } =
        VOLUME_ICONS.getD (iconIndex 30) ZERO_ICON
    ∧ get_icon { current_volume := 100, muted := false } =
        VOLUME_ICONS.getD (VOLUME_ICONS.length - 1) ZERO_ICON :=
  C8_icon_monotone 30 60 (by decide) (by decide) (by decide)

/-- C9: modelling the external invocations as a sequence of outcomes, when the
first success (decodable output with at least one line) comes after `k`
failures, the poller performs exactly `k` sleeps whose durations in seconds are
`min(30, 2^i)` for the `i`-th failure (counting from 0: 1, 2, 4, …, capped at
30), returns the last line of the successful invocation's decoded output, and
never returns an error to its caller. -/
theorem C9_poller_backoff (fails rest : List (Option (List String))) (L : List String)
    (hf : ∀ x ∈ fails, attemptResult x = none) (hL : L ≠ []) :
    fetch_status_line (fails ++ some L :: rest) =
      some ((List.range fails.length).map (fun i => min MAX_WAIT_SECONDS (2 ^ i)),
        L.getLast hL) := by
  have h := get_volume_info_backoff L hL fails rest 0 hf
  have h1 : min MAX_WAIT_SECONDS (2 ^ 0) = 1 := by decide
  rw [h1] at h
  unfold fetch_status_line
  rw [h]
  simp

/-- C9 (witness): seven failures followed by a success decoding to two lines:
the sleeps are 1, 2, 4, 8, 16, 30, 30 seconds and the last line is returned. -/
theorem C9_poller_backoff_witness :
    fetch_status_line
        ([none, none, none, none, none, none, none] ++ some ["a", "b"] :: []) =
      some ([1, 2, 4, 8, 16, 30, 30], "b") := by
  have h := C9_poller_backoff [none, none, none, none, none, none, none] [] ["a", "b"]
    (by decide) (by decide)
  exact h.trans (by decide)

/-- C10: for every volume value `v ≥ 0` in the `i32` range — including values
above 100, which the parser can produce (the line `"[150%] [on]"` stores 150)
— the index computed by `get_icon` is strictly below the icon-array length, so
the indexing is in bounds; and every `v ≥ 100` selects the last icon.
(`get_icon` itself is a total function: each branch returns a glyph.) -/
theorem C10_icon_safety (v : Int) (h0 : 0 ≤ v) (hmax : v ≤ I32_MAX) :
    iconIndex v < VOLUME_ICONS.length
    ∧ (100 ≤ v →
        iconIndex v = VOLUME_ICONS.length - 1
        ∧ get_icon { current_volume := v, muted := false } =
            VOLUME_ICONS.getD (VOLUME_ICONS.length - 1) ZERO_ICON)
    ∧ (update_current_volume defaultState "[150%] [on]".data).2.current_volume = 150 := by
  refine ⟨?_, ?_, by decide⟩
  · unfold iconIndex
    exact lt_of_le_of_lt (min_le_right _ _) (by decide)
  · intro h100
    have hidx : iconIndex v = VOLUME_ICONS.length - 1 := by
      unfold iconIndex
      apply min_eq_right
      have hlen : VOLUME_ICONS.length = 3 := rfl
      rw [hlen]
      have h3 : 3 ≤ v.toNat * 3 / 100 := by
        rw [Nat.le_div_iff_mul_le (by norm_num)]
        omega
      omega
    refine ⟨hidx, ?_⟩
    have hne : (v == 0) = false := beq_eq_false_iff_ne.mpr (by omega)
    simp [get_icon, hne, hidx]

/-- C10 (witness): the safety properties at `v = 150`. -/
theorem C10_icon_safety_witness :
    iconIndex 150 < VOLUME_ICONS.length
    ∧ (100 ≤ (150 : Int) →
        iconIndex 150 = VOLUME_ICONS.length - 1
        ∧ get_icon { current_volume := 150, muted := false } =
            VOLUME_ICONS.getD (VOLUME_ICONS.length - 1) ZERO_ICON)
    ∧ (update_current_volume defaultState "[150%] [on]".data).2.current_volume = 150 :=
  C10_icon_safety 150 (by decide) (by decide)

end MuseStatus
